import Mathlib

set_option autoImplicit false

/-!
Verification of the token lifecycle manager and the interaction orchestrator
of the okta-auth-js core, as a shallow embedding in Lean 4.

The TypeScript sources embedded here:
* `src/unnamed/part_000` — the TokenManager (storage, expiry timers,
  renewal, throttling, cross-tab reconciliation);
* `src/unnamed/part_001` — the VerifyAuthenticator remediator;
* `src/lib/idx/run.ts` — the interaction orchestrator `run`.

External collaborators (HTTP transport, browser storage, the event
emitter, `remediate`) are modelled as explicit inputs and outputs:
emitted events become a returned event list, storage becomes an
association list carried in the state, network activity becomes a
counter, and thrown exceptions become `Except` or returned error values.
-/

namespace OktaAuthJs

/-- A stored token object. Field `scopes` models presence of the `scopes`
property (any array, even empty, is truthy in JS); `expiresAt` is `none`
when the property is absent (`undefined`); `idTok`/`accessTok`/`refreshTok`
model the `isIDToken`/`isAccessToken`/`isRefreshToken` discriminators,
which test presence of the corresponding property; `payload` stands for
the opaque serialized content, so that two tokens with different payloads
have different `JSON.stringify` images. -/
structure Token where
  scopes : Bool := true
  expiresAt : Option Int := some 0
  idTok : Bool := false
  accessTok : Bool := false
  refreshTok : Bool := false
  payload : Nat := 0
deriving Repr, DecidableEq

/-- `isIDToken` from `./types` (presence of the `idToken` property). -/
def isIDToken (t : Token) : Bool := t.idTok

/-- `isAccessToken` from `./types`. -/
def isAccessToken (t : Token) : Bool := t.accessTok

/-- `isRefreshToken` from `./types`. -/
def isRefreshToken (t : Token) : Bool := t.refreshTok

/-- `validateToken` (part_000 lines 155-164), phrased as the predicate the
function checks before throwing: the token must carry `scopes`, a defined
`expiresAt` (the JS guard `!expiresAt && expiresAt !== 0` rejects exactly
`undefined`, while `0` passes), and one of the three kind properties.
Record inputs are always objects, so the `isObject` conjunct holds. -/
def validateToken (t : Token) : Bool :=
  t.scopes && t.expiresAt.isSome && (isIDToken t || isAccessToken t || isRefreshToken t)

/-- `getExpireTime` (part_000 lines 48-51): `token.expiresAt -
options.expireEarlySeconds`, for a token whose `expiresAt` is defined. -/
def getExpireTime (expireEarlySeconds : Int) (expiresAt : Int) : Int :=
  expiresAt - expireEarlySeconds

/-- `hasExpired` (part_000 lines 53-56): `expireTime <= clock.now()`.
When `expiresAt` is `undefined`, the JS subtraction yields `NaN` and the
comparison is false. -/
def hasExpired (expireEarlySeconds now : Int) (t : Token) : Bool :=
  match t.expiresAt with
  | some e => decide (getExpireTime expireEarlySeconds e ≤ now)
  | none => false

/-! Association-list maps with string keys, modelling plain JS objects
used as dictionaries (`tokenStorage`, `expireTimeouts`, `renewPromise`).
Key order models JS own-property insertion order. -/

/-- Lookup of a key in an association list (`obj[key]`). -/
def alookup {β : Type} : List (String × β) → String → Option β
  | [], _ => none
  | (k, v) :: rest, key => if k == key then some v else alookup rest key

/-- Deletion of a key from an association list (`delete obj[key]`). -/
def aerase {β : Type} : List (String × β) → String → List (String × β)
  | [], _ => []
  | (k, v) :: rest, key =>
      if k == key then aerase rest key else (k, v) :: aerase rest key

/-- Assignment `obj[key] = v`: replaces an existing entry in place, or
appends a fresh one, matching JS property-order semantics. -/
def ainsert {β : Type} : List (String × β) → String → β → List (String × β)
  | [], key, v => [(key, v)]
  | (k, w) :: rest, key, v =>
      if k == key then (key, v) :: rest else (k, w) :: ainsert rest key v

/-! TokenManager state and events. -/

/-- The mutable dictionaries of `tokenMgmtRef` plus the token storage it
works against: `storage` models the adapter contents (`getStorage` /
`setStorage`), `expireTimeouts` the pending expiry-timer map (the token
captured by the scheduled callback is retained), `renewPromise` the map
from key to the identity of the in-flight renewal promise. -/
structure TMState where
  storage : List (String × Token) := []
  expireTimeouts : List (String × Token) := []
  renewPromise : List (String × Nat) := []
deriving Repr, DecidableEq

/-- The error object thrown out of a renewal: `isAuthError` models
`err.name === "OAuthError" || err.name === "AuthSdkError"`, and
`tokenKey` the `err.tokenKey` tag set in the catch handler. -/
structure RenewError where
  isAuthError : Bool
  tokenKey : Option String := none
deriving Repr, DecidableEq

/-- Events published on the emitter by the TokenManager. The `removed`
token argument is optional because `emitRemoved` is sometimes called
without a token. -/
inductive TMEvent where
  | added (key : String) (token : Token)
  | removed (key : String) (token : Option Token)
  | renewed (key : String) (freshToken : Token) (oldToken : Option Token)
  | expired (key : String) (token : Token)
  | error (err : RenewError)
deriving Repr, DecidableEq

/-- Errors thrown synchronously by TokenManager entry points. -/
inductive SdkError where
  | invalidTokenShape
  | noTokenForKey (key : String)
deriving Repr, DecidableEq

/-- `clearExpireEventTimeout` (part_000 lines 97-103): clears the timer
for the key and deletes the renew promise for the key. -/
def clearExpireEventTimeout (st : TMState) (key : String) : TMState :=
  { st with
    expireTimeouts := aerase st.expireTimeouts key
    renewPromise := aerase st.renewPromise key }

/-- `setExpireEventTimeout` (part_000 lines 115-128): clears any existing
timer for the key (which also drops its renew promise), then records a
fresh timer holding the token. -/
def setExpireEventTimeout (st : TMState) (key : String) (token : Token) : TMState :=
  let st1 := clearExpireEventTimeout st key
  { st1 with expireTimeouts := st1.expireTimeouts ++ [(key, token)] }

/-- `clearExpireEventTimeoutAll` (part_000 lines 105-113): iterates over
the keys of the timer map, clearing each. -/
def clearExpireEventTimeoutAll (st : TMState) : TMState :=
  st.expireTimeouts.foldl (fun s kv => clearExpireEventTimeout s kv.1) st

/-- `setExpireEventTimeoutAll` (part_000 lines 130-147): schedules a
timer for every token found in storage. -/
def setExpireEventTimeoutAll (st : TMState) : TMState :=
  st.storage.foldl (fun s kv => setExpireEventTimeout s kv.1 kv.2) st

/-- `resetExpireEventTimeoutAll` (part_000 lines 150-153): clears every
timer and recomputes them from the current storage contents. -/
def resetExpireEventTimeoutAll (st : TMState) : TMState :=
  setExpireEventTimeoutAll (clearExpireEventTimeoutAll st)

/-- `_add` (part_000 lines 166-173): reads storage, validates the token
(throwing before any write when invalid), writes the token under the
key, emits "added", and schedules the expiry timer. `add` (lines
175-185) only prepends a console warning on localhost and then calls
`_add`, so its observable behaviour is that of `_add`. -/
def add (st : TMState) (key : String) (token : Token) :
    Except SdkError (TMState × List TMEvent) :=
  if validateToken token then
    let st1 := { st with storage := ainsert st.storage key token }
    let st2 := setExpireEventTimeout st1 key token
    .ok (st2, [TMEvent.added key token])
  else
    .error SdkError.invalidTokenShape

/-- `remove` (part_000 lines 296-306): clears the timer (and renew
promise) for the key, deletes the entry, and emits "removed" with the
removed value. -/
def remove (st : TMState) (key : String) : TMState × List TMEvent :=
  let st1 := clearExpireEventTimeout st key
  let removedToken := alookup st1.storage key
  let st2 := { st1 with storage := aerase st1.storage key }
  (st2, [TMEvent.removed key removedToken])

/-! `setTokens` and its helpers. -/

/-- The three token kinds handled by the manager. -/
inductive TokenType where
  | idToken
  | accessToken
  | refreshToken
deriving Repr, DecidableEq

/-- Modelled from the spec: the per-kind default storage keys imported
from `./constants` (`ID_TOKEN_STORAGE_KEY` and friends), whose source is
not under `src/`; the spec only requires a stable distinct default key
per kind, which these provide. -/
def defaultStorageKey : TokenType → String
  | TokenType.idToken => "idToken"
  | TokenType.accessToken => "accessToken"
  | TokenType.refreshToken => "refreshToken"

/-- Does a stored token match a requested kind, as tested by the filter
inside `getKeyByType` (part_000 lines 194-199)? -/
def tokenMatchesType (t : Token) : TokenType → Bool
  | TokenType.accessToken => isAccessToken t
  | TokenType.idToken => isIDToken t
  | TokenType.refreshToken => isRefreshToken t

/-- `getKeyByType` (part_000 lines 192-201): the first storage key, in
property order, whose token is of the requested kind (`undefined` when
none is). -/
def getKeyByType (storage : List (String × Token)) (ty : TokenType) : Option String :=
  ((storage.filter fun kv => tokenMatchesType kv.2 ty).head?).map (fun kv => kv.1)

/-- The `Tokens` bag `{accessToken?, idToken?, refreshToken?}`. -/
structure TokenBag where
  accessToken : Option Token := none
  idToken : Option Token := none
  refreshToken : Option Token := none
deriving Repr, DecidableEq

/-- `getTokens` (part_000 lines 210-224): scans storage in property
order, classifying each entry into the bag (a later entry of the same
kind overwrites an earlier one). -/
def getTokens (storage : List (String × Token)) : TokenBag :=
  storage.foldl
    (fun bag kv =>
      if isAccessToken kv.2 then { bag with accessToken := some kv.2 }
      else if isIDToken kv.2 then { bag with idToken := some kv.2 }
      else if isRefreshToken kv.2 then { bag with refreshToken := some kv.2 }
      else bag)
    {}

/-- One `if (token) handleAdded else if (existing) handleRemoved` branch
of `setTokens` (part_000 lines 278-292): `handleAdded` emits "added" and
schedules the timer, `handleRemoved` clears the timer and emits
"removed"; the optional per-kind callbacks receive exactly the emitted
pair and are therefore subsumed by the event list. -/
def setTokensHandleKind (acc : TMState × List TMEvent) (key : String)
    (newToken existing : Option Token) : TMState × List TMEvent :=
  match newToken with
  | some t => (setExpireEventTimeout acc.1 key t, acc.2 ++ [TMEvent.added key t])
  | none =>
      match existing with
      | some t => (clearExpireEventTimeout acc.1 key, acc.2 ++ [TMEvent.removed key (some t)])
      | none => acc

/-- `setTokens` (part_000 lines 234-293): validates the id and access
tokens (the refresh token is not validated), resolves the per-kind
storage keys against the pre-write storage, replaces the whole storage
contents with the new bag, then reads `existingTokens` back from storage
(note: after the write) and runs the per-kind added/removed branches in
id, access, refresh order. -/
def setTokens (st : TMState) (bag : TokenBag) :
    Except SdkError (TMState × List TMEvent) :=
  if bag.idToken.any (fun t => !(validateToken t)) then
    .error SdkError.invalidTokenShape
  else if bag.accessToken.any (fun t => !(validateToken t)) then
    .error SdkError.invalidTokenShape
  else
    let idTokenKey := (getKeyByType st.storage TokenType.idToken).getD
      (defaultStorageKey TokenType.idToken)
    let accessTokenKey := (getKeyByType st.storage TokenType.accessToken).getD
      (defaultStorageKey TokenType.accessToken)
    let refreshTokenKey := (getKeyByType st.storage TokenType.refreshToken).getD
      (defaultStorageKey TokenType.refreshToken)
    let tokenStorage :=
      (bag.idToken.map (fun t => (idTokenKey, t))).toList ++
      (bag.accessToken.map (fun t => (accessTokenKey, t))).toList ++
      (bag.refreshToken.map (fun t => (refreshTokenKey, t))).toList
    let st1 := { st with storage := tokenStorage }
    let existingTokens := getTokens st1.storage
    let acc1 := setTokensHandleKind (st1, []) idTokenKey bag.idToken existingTokens.idToken
    let acc2 := setTokensHandleKind acc1 accessTokenKey bag.accessToken existingTokens.accessToken
    let acc3 := setTokensHandleKind acc2 refreshTokenKey bag.refreshToken existingTokens.refreshToken
    .ok acc3

/-! `renew`: deduplicated renewal with explicit promise identities. -/

/-- State threaded through renew calls: the manager state, a counter
supplying fresh promise identities, and a count of renewal transport
requests issued (`_renewToken`, part_000 lines 308-324, performs exactly
one renewal exchange — refresh-grant or plain renew — per call). -/
structure RenewState where
  tm : TMState := {}
  nextPromiseId : Nat := 0
  networkCalls : Nat := 0
deriving Repr, DecidableEq

/-- The synchronous outcome of calling `renew(key)`: either a pending
promise (identified by `pid`) or an already-rejected promise. -/
inductive RenewOutcome where
  | pending (pid : Nat)
  | rejected (e : SdkError)
deriving Repr, DecidableEq

/-- `renew` (part_000 lines 326-383), the synchronous part: an existing
in-flight promise for the key is returned as-is; a missing token yields
a rejected promise; otherwise the timer for the key is cleared, a fresh
renewal is started (one transport request), and its promise is memoized
under the key. -/
def renew (st : RenewState) (key : String) : RenewOutcome × RenewState :=
  match alookup st.tm.renewPromise key with
  | some pid => (RenewOutcome.pending pid, st)
  | none =>
      match alookup st.tm.storage key with
      | none => (RenewOutcome.rejected (SdkError.noTokenForKey key), st)
      | some _ =>
          let tm1 := clearExpireEventTimeout st.tm key
          let pid := st.nextPromiseId
          let tm2 := { tm1 with renewPromise := tm1.renewPromise ++ [(key, pid)] }
          (RenewOutcome.pending pid,
           { tm := tm2, nextPromiseId := pid + 1, networkCalls := st.networkCalls + 1 })

/-- The catch handler of `renew` (part_000 lines 356-375): for an
authorization error (`OAuthError`/`AuthSdkError`), if the token
currently in storage has expired it is deleted (timer cleared, storage
written back) and "removed" fires with that token, otherwise "removed"
fires without a token and storage is untouched; the error is then tagged
with the key and an "error" event fires. The returned error is the one
rethrown to the caller. Non-authorization errors are rethrown untouched
with no events. -/
def renewCatch (tm : TMState) (key : String) (err : RenewError) (expireEarlySeconds now : Int) :
    TMState × List TMEvent × RenewError :=
  if err.isAuthError then
    let taggedErr := { err with tokenKey := some key }
    match alookup tm.storage key with
    | some currentToken =>
        if hasExpired expireEarlySeconds now currentToken then
          let tm1 := clearExpireEventTimeout { tm with storage := aerase tm.storage key } key
          (tm1, [TMEvent.removed key (some currentToken), TMEvent.error taggedErr], taggedErr)
        else
          (tm, [TMEvent.removed key none, TMEvent.error taggedErr], taggedErr)
    | none =>
        (tm, [TMEvent.removed key none, TMEvent.error taggedErr], taggedErr)
  else
    (tm, [], err)

/-- The finally handler of `renew` (part_000 lines 377-380): drops the
memoized promise for the key. -/
def renewFinally (tm : TMState) (key : String) : TMState :=
  { tm with renewPromise := aerase tm.renewPromise key }

/-- Settlement of a failed renewal: the catch handler followed by the
finally handler. The third component is the rejection propagated to the
caller of `renew`. -/
def settleRenewFailure (st : RenewState) (key : String) (err : RenewError)
    (expireEarlySeconds now : Int) : RenewState × List TMEvent × RenewError :=
  let res := renewCatch st.tm key err expireEarlySeconds now
  ({ st with tm := renewFinally res.1 key }, res.2.1, res.2.2)

/-- Settlement of a successful renewal (part_000 lines 348-355, 377-380):
capture the old storage, `remove` the old entry (emitting "removed"),
`_add` the fresh token (emitting "added" and rescheduling the timer),
emit "renewed" with the fresh and old tokens, and finally drop the
memoized promise. Should `_add` reject the fresh token, its
`AuthSdkError` falls through to the catch handler, whose rethrown error
is returned as the third component. -/
def settleRenewSuccess (st : RenewState) (key : String) (freshToken : Token)
    (expireEarlySeconds now : Int) : RenewState × List TMEvent × Option RenewError :=
  let oldToken := alookup st.tm.storage key
  let removeRes := remove st.tm key
  if validateToken freshToken then
    let tm1 := { removeRes.1 with storage := ainsert removeRes.1.storage key freshToken }
    let tm2 := setExpireEventTimeout tm1 key freshToken
    ({ st with tm := renewFinally tm2 key },
     removeRes.2 ++ [TMEvent.added key freshToken, TMEvent.renewed key freshToken oldToken],
     none)
  else
    let catchRes := renewCatch removeRes.1 key { isAuthError := true } expireEarlySeconds now
    ({ st with tm := renewFinally catchRes.1 key },
     removeRes.2 ++ catchRes.2.1, some catchRes.2.2)

/-! Auto-renew throttling. -/

/-- `shouldThrottleRenew` (part_000 lines 390-400): pushes the current
time onto the attempt queue; once the queue holds at least 10 entries,
shifts the oldest and throttles when the newest is less than 30 seconds
after it. Returns the decision and the updated queue. -/
def shouldThrottleRenew (renewTimeQueue : List Int) (now : Int) : Bool × List Int :=
  let q := renewTimeQueue ++ [now]
  if 10 ≤ q.length then
    match q with
    | [] => (false, [])
    | firstTime :: rest =>
        match rest.getLast? with
        | some lastTime => (decide (lastTime - firstTime < 30 * 1000), rest)
        | none => (false, rest)
  else
    (false, q)

/-- What the expired-event handler does besides updating the queue. -/
inductive ExpiredAction where
  | throttledError
  | renewIssued
  | removeIssued
  | nothing
deriving Repr, DecidableEq

/-- `onTokenExpiredHandler` (part_000 lines 485-496): with auto-renew
enabled, a throttled attempt emits the "Too many token renew requests"
error and issues no renewal, otherwise `renew` is invoked (its rejection
swallowed); with auto-renew disabled but auto-remove enabled, the token
is removed. -/
def onTokenExpiredHandler (autoRenew autoRemove : Bool) (renewTimeQueue : List Int)
    (now : Int) : ExpiredAction × List Int :=
  if autoRenew then
    let (throttled, q1) := shouldThrottleRenew renewTimeQueue now
    if throttled then (ExpiredAction.throttledError, q1)
    else (ExpiredAction.renewIssued, q1)
  else if autoRemove then
    (ExpiredAction.removeIssued, renewTimeQueue)
  else
    (ExpiredAction.nothing, renewTimeQueue)

/-! Cross-tab storage synchronization. -/

/-- A serialized storage value as delivered by a StorageEvent, modelled
by its parse under `getTokensFromStorageValue` (part_000 lines 402-410):
`none` stands for `null` or an unparsable string, both of which parse to
the empty token map. Equality of two values models equality of the
serialized strings. -/
def StorageValue : Type := Option (List (String × Token))

instance : DecidableEq StorageValue := by
  unfold StorageValue
  infer_instance

/-- `getTokensFromStorageValue` (part_000 lines 402-410). -/
def getTokensFromStorageValue (value : StorageValue) : List (String × Token) :=
  value.getD []

/-- `emitEventsForCrossTabsStorageUpdate` (part_000 lines 78-95): for
every key of the new token map whose serialized token differs from the
old one, emit "added" with the new token; then, for every key of the old
map with no token in the new map, emit "removed" with the old token. -/
def emitEventsForCrossTabsStorageUpdate (newValue oldValue : StorageValue) : List TMEvent :=
  let oldTokens := getTokensFromStorageValue oldValue
  let newTokens := getTokensFromStorageValue newValue
  (newTokens.filterMap fun kv =>
    if alookup oldTokens kv.1 ≠ some kv.2 then some (TMEvent.added kv.1 kv.2) else none) ++
  (oldTokens.filterMap fun kv =>
    if alookup newTokens kv.1 = none then some (TMEvent.removed kv.1 (some kv.2)) else none)

/-- The storage-event listener installed by the constructor (part_000
lines 505-522): the event is skipped when its key is truthy and either
differs from the configured storage key or carries unchanged values;
otherwise, after the configured delay, every expiry timer is cleared and
recomputed from storage and the cross-tab diff events are emitted. The
event key is `none` for a `localStorage.clear` notification; a truthy
key is a non-empty string (`""` is falsy in JS). -/
def handleStorageEvent (st : TMState) (eventKey : Option String)
    (newValue oldValue : StorageValue) (storageKey : String) : TMState × List TMEvent :=
  let keyTruthy := match eventKey with
    | some k => k ≠ ""
    | none => false
  if keyTruthy && (eventKey ≠ some storageKey || newValue = oldValue) then
    (st, [])
  else
    (resetExpireEventTimeoutAll st, emitEventsForCrossTabsStorageUpdate newValue oldValue)

end OktaAuthJs

namespace OktaAuthJsIdx

/-- Transaction statuses (`IdxStatus` from `../types`). -/
inductive IdxStatus where
  | pending
  | success
  | failure
  | terminal
  | canceled
deriving Repr, DecidableEq

/-- The fields of the value returned by `remediate` that the status
resolution of `run` inspects (run.ts lines 138-144): the `terminal` and
`canceled` flags and whether the new IdxResponse carries an interaction
code (`idxResponseFromResp?.interactionCode`, which is also falsy when
the response itself is missing). -/
structure RemediationResult where
  terminal : Bool
  canceled : Bool
  interactionCode : Option String
deriving Repr, DecidableEq

/-- The observable outcome of one `run` invocation, projected onto the
fields the claims speak about: the resolved status, whether
`exchangeCodeForTokens` was invoked, whether tokens and an error are
attached to the returned transaction, and the meta-clearing flags. -/
structure RunResult where
  status : IdxStatus
  exchanged : Bool
  hasTokens : Bool
  hasError : Bool
  shouldClearTransaction : Bool
  clearSharedStorage : Bool
deriving Repr, DecidableEq

/-- The status resolution of `run` (run.ts lines 95-198) for an
invocation that reached `remediate` (remediator or action options were
supplied): starting from PENDING with `shouldClearTransaction = false`
and `clearSharedStorage = true`, the source executes

`if (terminal) ... if (canceled) ... else if (interactionCode) ...`

with no `else` between the first two branches. In the interaction-code
branch, an unfinished flow monitor throws an `AuthSdkError`, and the
token exchange itself may throw; every exception is caught at the `run`
boundary (lines 190-194) and converted to a FAILURE result with the
error attached — nothing escapes the function. `flowFinished` is the
value of `options.flowMonitor.isFinished()` and `exchangeOk` tells
whether `exchangeCodeForTokens` succeeds. -/
def run (r : RemediationResult) (flowFinished exchangeOk : Bool) : RunResult :=
  let afterTerminal :=
    if r.terminal then (IdxStatus.terminal, true, false)
    else (IdxStatus.pending, false, true)
  if r.canceled then
    { status := IdxStatus.canceled, exchanged := false, hasTokens := false,
      hasError := false, shouldClearTransaction := true,
      clearSharedStorage := afterTerminal.2.2 }
  else
    match r.interactionCode with
    | some _ =>
        if flowFinished then
          if exchangeOk then
            { status := IdxStatus.success, exchanged := true, hasTokens := true,
              hasError := false, shouldClearTransaction := true,
              clearSharedStorage := afterTerminal.2.2 }
          else
            { status := IdxStatus.failure, exchanged := true, hasTokens := false,
              hasError := true, shouldClearTransaction := true,
              clearSharedStorage := afterTerminal.2.2 }
        else
          { status := IdxStatus.failure, exchanged := false, hasTokens := false,
            hasError := true, shouldClearTransaction := true,
            clearSharedStorage := afterTerminal.2.2 }
    | none =>
        { status := afterTerminal.1, exchanged := false, hasTokens := false,
          hasError := false, shouldClearTransaction := afterTerminal.2.1,
          clearSharedStorage := afterTerminal.2.2 }

/-- The value bag consumed by the verify-authenticator remediator
(part_001 lines 16-20). A field is `none` when absent; the empty string
is falsy in JS, which `truthy` accounts for. -/
structure VerifyAuthenticatorValues where
  verificationCode : Option String := none
  password : Option String := none
  otp : Option String := none
deriving Repr, DecidableEq

/-- JS truthiness of an optional string value. -/
def truthy : Option String → Bool
  | none => false
  | some s => s ≠ ""

/-- `VerifyAuthenticator.canRemediate` (part_001 lines 31-37): for a
password-type bound authenticator, `!!values.password`; otherwise
`!!(values.verificationCode || values.otp)`. The bound authenticator is
represented by its `type` string. -/
def canRemediate (authenticatorType : String) (values : VerifyAuthenticatorValues) : Bool :=
  if authenticatorType == "password" then truthy values.password
  else truthy values.verificationCode || truthy values.otp

end OktaAuthJsIdx

namespace OktaAuthJs

/-! The concrete `setTokens` scenario of the specification: store an id
token and an access token, then call again with only the (unchanged)
access token. -/

/-- A well-formed id token for the scenario. -/
def scenarioIdToken : Token := { idTok := true, payload := 1 }

/-- A well-formed access token for the scenario. -/
def scenarioAccessToken : Token := { accessTok := true, payload := 2 }

/-- Events emitted by the second call of
`setTokens({idToken, accessToken})` followed by `setTokens({accessToken})`,
starting from empty storage, with the access token byte-identical across
the two calls. -/
def scenarioSecondCallEvents : List TMEvent :=
  match setTokens {} { idToken := some scenarioIdToken,
                       accessToken := some scenarioAccessToken } with
  | Except.ok res1 =>
      match setTokens res1.1 { accessToken := some scenarioAccessToken } with
      | Except.ok res2 => res2.2
      | Except.error _ => []
  | Except.error _ => []

end OktaAuthJs

/-! Helper lemmas about the association-list operations. -/

namespace OktaAuthJs

@[simp] theorem alookup_aerase_self {β : Type} (l : List (String × β)) (key : String) :
    alookup (aerase l key) key = none := by
  induction l with
  | nil => rfl
  | cons kv rest ih =>
      unfold aerase
      by_cases h : kv.1 == key
      · simp [h, ih]
      · simp [h, alookup, ih]

theorem alookup_append_right {β : Type} (l : List (String × β)) (key : String) (v : β)
    (h : alookup l key = none) : alookup (l ++ [(key, v)]) key = some v := by
  induction l with
  | nil => simp [alookup]
  | cons kv rest ih =>
      unfold alookup at h ⊢
      by_cases hk : kv.1 == key
      · simp [hk] at h
      · simpa [hk] using ih (by simpa [hk] using h)

@[simp] theorem alookup_ainsert_self {β : Type} (l : List (String × β)) (key : String) (v : β) :
    alookup (ainsert l key v) key = some v := by
  induction l with
  | nil => simp [ainsert, alookup]
  | cons kv rest ih =>
      unfold ainsert
      by_cases h : kv.1 == key
      · simp [h, alookup]
      · simp [h, alookup, ih]

theorem mem_of_mem_aerase {β : Type} {l : List (String × β)} {key : String}
    {p : String × β} (h : p ∈ aerase l key) : p ∈ l ∧ p.1 ≠ key := by
  induction l with
  | nil => cases h
  | cons kv rest ih =>
      unfold aerase at h
      by_cases hk : kv.1 == key
      · rw [if_pos hk] at h
        exact ⟨List.mem_cons_of_mem _ (ih h).1, (ih h).2⟩
      · rw [if_neg hk] at h
        rcases List.mem_cons.mp h with h1 | h2
        · subst h1
          exact ⟨List.mem_cons_self _ _, by simpa using hk⟩
        · exact ⟨List.mem_cons_of_mem _ (ih h2).1, (ih h2).2⟩

theorem aerase_of_not_mem {β : Type} {l : List (String × β)} {key : String}
    (h : ∀ p ∈ l, p.1 ≠ key) : aerase l key = l := by
  induction l with
  | nil => rfl
  | cons kv rest ih =>
      unfold aerase
      have hk : ¬ (kv.1 == key) := by
        simpa using h kv (List.mem_cons_self _ _)
      rw [if_neg hk, ih (fun p hp => h p (List.mem_cons_of_mem _ hp))]

end OktaAuthJs

open OktaAuthJs OktaAuthJsIdx

/-- C8: for every token and clock reading `now`, a token whose
`expiresAt` equals `now + expireEarlySeconds - 1` has expired according
to `hasExpired`, while one whose `expiresAt` equals
`now + expireEarlySeconds + 1` has not. -/
theorem hasExpired_boundary (t : Token) (expireEarlySeconds now : Int) :
    (t.expiresAt = some (now + expireEarlySeconds - 1) →
      hasExpired expireEarlySeconds now t = true) ∧
    (t.expiresAt = some (now + expireEarlySeconds + 1) →
      hasExpired expireEarlySeconds now t = false) := by
  constructor <;> intro h <;>
    simp only [hasExpired, h, getExpireTime, decide_eq_true_eq, decide_eq_false_iff_not] <;>
    omega

/-- C8 witness: the two boundary cases at `expireEarlySeconds = 30`,
`now = 100`. -/
theorem hasExpired_boundary_witness :
    ({ expiresAt := some 129 } : Token).expiresAt = some (100 + 30 - 1) ∧
    hasExpired 30 100 { expiresAt := some 129 } = true ∧
    ({ expiresAt := some 131 } : Token).expiresAt = some (100 + 30 + 1) ∧
    hasExpired 30 100 { expiresAt := some 131 } = false :=
  ⟨by decide,
   (hasExpired_boundary { expiresAt := some 129 } 30 100).1 (by decide),
   by decide,
   (hasExpired_boundary { expiresAt := some 131 } 30 100).2 (by decide)⟩

/-- C7: `add` rejects, with a usage error and before any storage write,
event, or timer, every token that lacks `scopes`, lacks a defined
`expiresAt`, or is of no recognizable kind; for every token passing
`validateToken`, it writes the token under the key, emits exactly one
"added" event for it, and schedules its expiry timer. -/
theorem add_validates_and_stores (st : TMState) (key : String) (t : Token) :
    ((t.scopes = false ∨ t.expiresAt = none ∨
        (isIDToken t = false ∧ isAccessToken t = false ∧ isRefreshToken t = false)) →
      add st key t = Except.error SdkError.invalidTokenShape) ∧
    (validateToken t = true →
      ∃ st2, add st key t = Except.ok (st2, [TMEvent.added key t]) ∧
        alookup st2.storage key = some t ∧
        alookup st2.expireTimeouts key = some t) := by
  constructor
  · intro h
    have hv : validateToken t = false := by
      unfold validateToken
      rcases h with h | h | ⟨h1, h2, h3⟩
      · simp [h]
      · simp [h]
      · simp [h1, h2, h3]
    simp [add, hv]
  · intro hv
    refine ⟨setExpireEventTimeout { st with storage := ainsert st.storage key t } key t,
      ?_, ?_, ?_⟩
    · simp [add, hv]
    · simp [setExpireEventTimeout, clearExpireEventTimeout, alookup_ainsert_self]
    · simp only [setExpireEventTimeout, clearExpireEventTimeout]
      exact alookup_append_right _ _ _ (alookup_aerase_self _ _)

/-- C7 witness: a token without `scopes` is rejected; a recognizable
access token with default `scopes` and `expiresAt` is stored, announced,
and scheduled. -/
theorem add_validates_and_stores_witness :
    add {} "k" { scopes := false } = Except.error SdkError.invalidTokenShape ∧
    validateToken { accessTok := true } = true ∧
    (∃ st2, add {} "k" { accessTok := true } =
        Except.ok (st2, [TMEvent.added "k" { accessTok := true }]) ∧
      alookup st2.storage "k" = some { accessTok := true } ∧
      alookup st2.expireTimeouts "k" = some { accessTok := true }) :=
  ⟨(add_validates_and_stores {} "k" { scopes := false }).1 (Or.inl rfl),
   by decide,
   (add_validates_and_stores {} "k" { accessTok := true }).2 (by decide)⟩

/-- C9: for the verify-authenticator remediator, when the bound
authenticator has type "password" `canRemediate` holds exactly when a
(truthy) password value is supplied, and for every other authenticator
type exactly when a verificationCode or an otp value is supplied. -/
theorem canRemediate_password_or_code (ty : String) (v : VerifyAuthenticatorValues) :
    (ty = "password" → (canRemediate ty v = true ↔ truthy v.password = true)) ∧
    (ty ≠ "password" →
      (canRemediate ty v = true ↔
        (truthy v.verificationCode = true ∨ truthy v.otp = true))) := by
  constructor <;> intro h
  · simp [canRemediate, h]
  · simp [canRemediate, h]

/-- C9 witness: a supplied password satisfies a password challenge, and a
supplied otp satisfies an email challenge. -/
theorem canRemediate_password_or_code_witness :
    (canRemediate "password" { password := some "pw" } = true ↔
      truthy (some "pw") = true) ∧
    (canRemediate "email" { otp := some "123456" } = true ↔
      (truthy none = true ∨ truthy (some "123456") = true)) :=
  ⟨(canRemediate_password_or_code "password" { password := some "pw" }).1 rfl,
   (canRemediate_password_or_code "email" { otp := some "123456" }).2 (by decide)⟩

/-- C1: evaluation of the status resolution of `run` at the inputs that
decide the claim. Because of the missing `else` between the `terminal`
and `canceled` branches (run.ts lines 155-162), a result carrying both
`terminal` and `canceled` resolves to CANCELED, not TERMINAL, and a
result carrying `terminal` and an interaction code (with a finished flow
monitor) reaches the token exchange and resolves to SUCCESS — so
`terminal` does not take priority and an exchange is attempted. -/
theorem run_terminal_lacks_priority :
    (OktaAuthJsIdx.run { terminal := true, canceled := true, interactionCode := none }
        true true).status = IdxStatus.canceled ∧
    (OktaAuthJsIdx.run { terminal := true, canceled := false, interactionCode := some "ic" }
        true true).exchanged = true ∧
    (OktaAuthJsIdx.run { terminal := true, canceled := false, interactionCode := some "ic" }
        true true).status = IdxStatus.success := by
  exact ⟨rfl, rfl, rfl⟩

/-- C3 counterexample: a remediation result that carries both `canceled`
and an interaction code, under an unfinished flow monitor, resolves to
CANCELED with no error attached and no exchange — not to FAILURE as the
claim requires for every result carrying an interaction code. -/
theorem run_code_with_canceled_not_failure :
    (OktaAuthJsIdx.run { terminal := false, canceled := true, interactionCode := some "ic" }
        false true).status = IdxStatus.canceled ∧
    (OktaAuthJsIdx.run { terminal := false, canceled := true, interactionCode := some "ic" }
        false true).hasError = false ∧
    (OktaAuthJsIdx.run { terminal := false, canceled := true, interactionCode := some "ic" }
        false true).exchanged = false := by
  exact ⟨rfl, rfl, rfl⟩

/-- C3 (amended): for every remediation result that carries an
interaction code and does not carry `canceled`, when the flow monitor is
not finished the transaction resolves to FAILURE with an error attached
and no token exchange occurs; the thrown `AuthSdkError` is caught at the
`run` boundary (`run` is a total function into `RunResult`, the throw
never escapes it). -/
theorem run_unfinished_flow_fails (r : RemediationResult) (exchangeOk : Bool)
    (hcanceled : r.canceled = false) (hcode : r.interactionCode.isSome = true) :
    (OktaAuthJsIdx.run r false exchangeOk).status = IdxStatus.failure ∧
    (OktaAuthJsIdx.run r false exchangeOk).hasError = true ∧
    (OktaAuthJsIdx.run r false exchangeOk).exchanged = false := by
  obtain ⟨c, hc⟩ := Option.isSome_iff_exists.mp hcode
  simp [OktaAuthJsIdx.run, hcanceled, hc]

/-- C3 witness: the amended statement at a concrete result carrying an
interaction code and no cancellation signal. -/
theorem run_unfinished_flow_fails_witness :
    ({ terminal := false, canceled := false, interactionCode := some "ic" } :
        RemediationResult).canceled = false ∧
    ({ terminal := false, canceled := false, interactionCode := some "ic" } :
        RemediationResult).interactionCode.isSome = true ∧
    (OktaAuthJsIdx.run { terminal := false, canceled := false, interactionCode := some "ic" }
        false true).status = IdxStatus.failure ∧
    (OktaAuthJsIdx.run { terminal := false, canceled := false, interactionCode := some "ic" }
        false true).hasError = true ∧
    (OktaAuthJsIdx.run { terminal := false, canceled := false, interactionCode := some "ic" }
        false true).exchanged = false :=
  ⟨rfl, rfl,
   (run_unfinished_flow_fails
     { terminal := false, canceled := false, interactionCode := some "ic" } true rfl rfl).1,
   (run_unfinished_flow_fails
     { terminal := false, canceled := false, interactionCode := some "ic" } true rfl rfl).2.1,
   (run_unfinished_flow_fails
     { terminal := false, canceled := false, interactionCode := some "ic" } true rfl rfl).2.2⟩

/-- C6: with ten attempt timestamps recorded (the queue holds nine and
the current attempt is pushed as the tenth), an auto-renew attempt whose
distance from the oldest of those ten timestamps is under 30 seconds is
throttled — the handler emits the error and issues no renewal — while a
span of 30 seconds or more renews; and with fewer than ten recorded
attempts the throttle never fires. -/
theorem throttle_window (autoRemove : Bool) (firstTime now : Int) (rest : List Int)
    (hlen : rest.length = 8) :
    (now - firstTime < 30 * 1000 →
      onTokenExpiredHandler true autoRemove (firstTime :: rest) now =
        (ExpiredAction.throttledError, rest ++ [now])) ∧
    (30 * 1000 ≤ now - firstTime →
      onTokenExpiredHandler true autoRemove (firstTime :: rest) now =
        (ExpiredAction.renewIssued, rest ++ [now])) ∧
    (∀ q : List Int, q.length < 9 → (shouldThrottleRenew q now).1 = false) := by
  have hq : shouldThrottleRenew (firstTime :: rest) now
      = (decide (now - firstTime < 30 * 1000), rest ++ [now]) := by
    simp [shouldThrottleRenew, hlen, List.getLast?_concat]
  refine ⟨?_, ?_, ?_⟩
  · intro h
    simp [onTokenExpiredHandler, hq, decide_eq_true h]
    omega
  · intro h
    have hn : ¬ (now - firstTime < 30 * 1000) := by omega
    simp [onTokenExpiredHandler, hq, decide_eq_false hn]
    omega
  · intro q hq9
    have hlt : ¬ (9 ≤ q.length) := by omega
    simp [shouldThrottleRenew, hlt]

/-- C6 witness: ten attempts spanning 29999 milliseconds are throttled;
the same queue with the tenth attempt 31 seconds after the oldest
renews. -/
theorem throttle_window_witness :
    ([1, 2, 3, 4, 5, 6, 7, 8] : List Int).length = 8 ∧
    ((29999 : Int) - 0 < 30 * 1000) ∧
    onTokenExpiredHandler true true [0, 1, 2, 3, 4, 5, 6, 7, 8] 29999 =
      (ExpiredAction.throttledError, [1, 2, 3, 4, 5, 6, 7, 8, 29999]) ∧
    (30 * 1000 ≤ (31000 : Int) - 0) ∧
    onTokenExpiredHandler true true [0, 1, 2, 3, 4, 5, 6, 7, 8] 31000 =
      (ExpiredAction.renewIssued, [1, 2, 3, 4, 5, 6, 7, 8, 31000]) :=
  ⟨by decide, by decide,
   (throttle_window true 0 29999 [1, 2, 3, 4, 5, 6, 7, 8] (by decide)).1 (by decide),
   by decide,
   (throttle_window true 0 31000 [1, 2, 3, 4, 5, 6, 7, 8] (by decide)).2.1 (by decide)⟩

/-- C2: evaluation of `setTokens` at the scenario input that decides the
claim. Because the source reads `existingTokens` back from storage only
after `storage.setStorage(tokenStorage)` has replaced the contents
(part_000 lines 274-277), the removal branches compare against the
just-written set: the id token present before the second call and
absent from its bag produces no "removed" event at all, and the
unchanged access token still produces an "added" event. -/
theorem setTokens_second_call_events :
    scenarioSecondCallEvents = [TMEvent.added "accessToken" scenarioAccessToken] := by
  decide

/-- C4: a second `renew` call for a key while a renewal for that key is
in flight returns the very same pending promise and the very same state
— in particular the transport-request counter is unchanged, so no second
network request is issued — and settling the first renewal, successfully
or not, clears the memoized promise for the key. -/
theorem renew_deduplicates (st st1 : RenewState) (key : String) (pid : Nat)
    (freshToken : Token) (err : RenewError) (expireEarlySeconds now : Int)
    (h : renew st key = (RenewOutcome.pending pid, st1)) :
    renew st1 key = (RenewOutcome.pending pid, st1) ∧
    alookup (settleRenewSuccess st1 key freshToken expireEarlySeconds now).1.tm.renewPromise
      key = none ∧
    alookup (settleRenewFailure st1 key err expireEarlySeconds now).1.tm.renewPromise
      key = none := by
  have hmem : alookup st1.tm.renewPromise key = some pid := by
    unfold renew at h
    cases hp : alookup st.tm.renewPromise key with
    | some p =>
        rw [hp] at h
        simp only [Prod.mk.injEq, RenewOutcome.pending.injEq] at h
        rw [← h.2, ← h.1]
        exact hp
    | none =>
        rw [hp] at h
        cases hs : alookup st.tm.storage key with
        | none => rw [hs] at h; simp at h
        | some tok =>
            rw [hs] at h
            simp only [Prod.mk.injEq, RenewOutcome.pending.injEq] at h
            rw [← h.2, ← h.1]
            exact alookup_append_right _ _ _ (by simp [clearExpireEventTimeout])
  refine ⟨?_, ?_, ?_⟩
  · unfold renew
    rw [hmem]
  · by_cases hvf : validateToken freshToken
    · simp [settleRenewSuccess, remove, hvf, renewFinally]
    · simp [settleRenewSuccess, remove, hvf, renewFinally]
  · simp [settleRenewFailure, renewFinally]

/-- C4 witness: one token under key "k", first call issues promise 0 and
one transport request; the duplicate call returns promise 0 with the
state untouched, and both settlements clear the memoization. -/
theorem renew_deduplicates_witness :
    renew { tm := { storage := [("k", {})] } } "k" =
      (RenewOutcome.pending 0,
       { tm := { storage := [("k", {})], expireTimeouts := [], renewPromise := [("k", 0)] },
         nextPromiseId := 1, networkCalls := 1 }) ∧
    (renew { tm := { storage := [("k", {})], expireTimeouts := [],
                     renewPromise := [("k", 0)] },
             nextPromiseId := 1, networkCalls := 1 } "k" =
      (RenewOutcome.pending 0,
       { tm := { storage := [("k", {})], expireTimeouts := [], renewPromise := [("k", 0)] },
         nextPromiseId := 1, networkCalls := 1 }) ∧
     alookup (settleRenewSuccess
        { tm := { storage := [("k", {})], expireTimeouts := [], renewPromise := [("k", 0)] },
          nextPromiseId := 1, networkCalls := 1 } "k" {} 30 0).1.tm.renewPromise "k" = none ∧
     alookup (settleRenewFailure
        { tm := { storage := [("k", {})], expireTimeouts := [], renewPromise := [("k", 0)] },
          nextPromiseId := 1, networkCalls := 1 } "k" { isAuthError := true } 30 0
        ).1.tm.renewPromise "k" = none) :=
  ⟨by decide,
   renew_deduplicates { tm := { storage := [("k", {})] } }
     { tm := { storage := [("k", {})], expireTimeouts := [], renewPromise := [("k", 0)] },
       nextPromiseId := 1, networkCalls := 1 } "k" 0 {} { isAuthError := true } 30 0
     (by decide)⟩

/-- C5: when a renewal for `key` fails with an authorization error while
a token is stored under the key, the rethrown rejection handed back to
the caller is the original error tagged with the key; if the stored
token has expired by the time of failure it is deleted from storage and
"removed" fires carrying that token, followed by the "error" event;
otherwise storage is left untouched and "removed" fires without a token,
again followed by the "error" event. -/
theorem renew_failure_cleanup (st : RenewState) (key : String) (err : RenewError)
    (cur : Token) (expireEarlySeconds now : Int)
    (hauth : err.isAuthError = true)
    (hcur : alookup st.tm.storage key = some cur) :
    (settleRenewFailure st key err expireEarlySeconds now).2.2 =
      { err with tokenKey := some key } ∧
    (hasExpired expireEarlySeconds now cur = true →
      alookup (settleRenewFailure st key err expireEarlySeconds now).1.tm.storage key
          = none ∧
      (settleRenewFailure st key err expireEarlySeconds now).2.1 =
        [TMEvent.removed key (some cur),
         TMEvent.error { err with tokenKey := some key }]) ∧
    (hasExpired expireEarlySeconds now cur = false →
      (settleRenewFailure st key err expireEarlySeconds now).1.tm.storage
          = st.tm.storage ∧
      (settleRenewFailure st key err expireEarlySeconds now).2.1 =
        [TMEvent.removed key none,
         TMEvent.error { err with tokenKey := some key }]) := by
  by_cases hexp : hasExpired expireEarlySeconds now cur = true
  · refine ⟨?_, fun _ => ⟨?_, ?_⟩, fun hne => ?_⟩
    · simp [settleRenewFailure, renewCatch, hauth, hcur, hexp]
    · simp [settleRenewFailure, renewCatch, hauth, hcur, hexp, renewFinally,
        clearExpireEventTimeout]
    · simp [settleRenewFailure, renewCatch, hauth, hcur, hexp]
    · rw [hexp] at hne
      cases hne
  · have hexp' : hasExpired expireEarlySeconds now cur = false := by
      cases hact : hasExpired expireEarlySeconds now cur
      · rfl
      · exact absurd hact hexp
    refine ⟨?_, fun hco => absurd hco hexp, fun _ => ⟨?_, ?_⟩⟩
    · simp [settleRenewFailure, renewCatch, hauth, hcur, hexp', renewFinally]
    · simp [settleRenewFailure, renewCatch, hauth, hcur, hexp', renewFinally]
    · simp [settleRenewFailure, renewCatch, hauth, hcur, hexp', renewFinally]

/-- C5 witness: the expired sub-case at a concrete state — an access
token that expired long before `now = 100` is deleted and announced,
the error is tagged with the key, and the tagged error is rethrown. -/
theorem renew_failure_cleanup_witness :
    ({ isAuthError := true } : RenewError).isAuthError = true ∧
    alookup ({ storage := [("k", { accessTok := true, expiresAt := some 10 })] } :
        TMState).storage "k" = some { accessTok := true, expiresAt := some 10 } ∧
    (settleRenewFailure { tm := { storage := [("k",
        { accessTok := true, expiresAt := some 10 })] } } "k"
        { isAuthError := true } 30 100).2.2 =
      { isAuthError := true, tokenKey := some "k" } ∧
    (hasExpired 30 100 { accessTok := true, expiresAt := some 10 } = true →
      alookup (settleRenewFailure { tm := { storage := [("k",
          { accessTok := true, expiresAt := some 10 })] } } "k"
          { isAuthError := true } 30 100).1.tm.storage "k" = none ∧
      (settleRenewFailure { tm := { storage := [("k",
          { accessTok := true, expiresAt := some 10 })] } } "k"
          { isAuthError := true } 30 100).2.1 =
        [TMEvent.removed "k" (some { accessTok := true, expiresAt := some 10 }),
         TMEvent.error { isAuthError := true, tokenKey := some "k" }]) :=
  ⟨rfl, by decide,
   (renew_failure_cleanup { tm := { storage := [("k",
       { accessTok := true, expiresAt := some 10 })] } } "k" { isAuthError := true }
       { accessTok := true, expiresAt := some 10 } 30 100 rfl (by decide)).1,
   (renew_failure_cleanup { tm := { storage := [("k",
       { accessTok := true, expiresAt := some 10 })] } } "k" { isAuthError := true }
       { accessTok := true, expiresAt := some 10 } 30 100 rfl (by decide)).2.1⟩

/-! Lemmas on the full timer reset used by the cross-tab listener. -/

theorem clearAll_fold_storage (l : List (String × Token)) (s : OktaAuthJs.TMState) :
    (l.foldl (fun a kv => clearExpireEventTimeout a kv.1) s).storage = s.storage := by
  induction l generalizing s with
  | nil => rfl
  | cons kv rest ih => simpa [clearExpireEventTimeout] using ih (clearExpireEventTimeout s kv.1)

theorem clearAll_fold_timeouts (l : List (String × Token)) (s : OktaAuthJs.TMState)
    (h : ∀ p ∈ s.expireTimeouts, ∃ q ∈ l, q.1 = p.1) :
    (l.foldl (fun a kv => clearExpireEventTimeout a kv.1) s).expireTimeouts = [] := by
  induction l generalizing s with
  | nil =>
      rcases hne : s.expireTimeouts with _ | ⟨p, rest⟩
      · simpa using hne
      · obtain ⟨q, hq, _⟩ := h p (by rw [hne]; exact List.mem_cons_self _ _)
        cases hq
  | cons kv rest ih =>
      refine ih (clearExpireEventTimeout s kv.1) ?_
      intro p hp
      have hmem := mem_of_mem_aerase hp
      obtain ⟨q, hq, hq1⟩ := h p hmem.1
      rcases List.mem_cons.mp hq with hqe | hqr
      · subst hqe
        exact absurd hq1.symm hmem.2
      · exact ⟨q, hqr, hq1⟩

theorem clearExpireEventTimeoutAll_timeouts (st : OktaAuthJs.TMState) :
    (clearExpireEventTimeoutAll st).expireTimeouts = [] :=
  clearAll_fold_timeouts st.expireTimeouts st (fun p hp => ⟨p, hp, rfl⟩)

theorem clearExpireEventTimeoutAll_storage (st : OktaAuthJs.TMState) :
    (clearExpireEventTimeoutAll st).storage = st.storage :=
  clearAll_fold_storage st.expireTimeouts st

theorem setAll_fold_timeouts (l : List (String × Token)) (s : OktaAuthJs.TMState)
    (hnd : (l.map Prod.fst).Nodup)
    (hdisj : ∀ p ∈ s.expireTimeouts, ∀ q ∈ l, p.1 ≠ q.1) :
    (l.foldl (fun a kv => setExpireEventTimeout a kv.1 kv.2) s).expireTimeouts
      = s.expireTimeouts ++ l := by
  induction l generalizing s with
  | nil => simp
  | cons kv rest ih =>
      have hstep : (setExpireEventTimeout s kv.1 kv.2).expireTimeouts
          = s.expireTimeouts ++ [kv] := by
        simp only [setExpireEventTimeout, clearExpireEventTimeout]
        rw [aerase_of_not_mem
          (fun p hp => hdisj p hp kv (List.mem_cons_self _ _))]
      have hnd' : (rest.map Prod.fst).Nodup := (List.nodup_cons.mp hnd).2
      have hkv : kv.1 ∉ rest.map Prod.fst := (List.nodup_cons.mp hnd).1
      have hdisj' : ∀ p ∈ (setExpireEventTimeout s kv.1 kv.2).expireTimeouts,
          ∀ q ∈ rest, p.1 ≠ q.1 := by
        intro p hp q hq
        rw [hstep] at hp
        rcases List.mem_append.mp hp with hp1 | hp2
        · exact hdisj p hp1 q (List.mem_cons_of_mem _ hq)
        · have : p = kv := by simpa using hp2
          subst this
          intro he
          exact hkv (he ▸ List.mem_map_of_mem Prod.fst hq)
      calc (List.foldl (fun a kv => setExpireEventTimeout a kv.1 kv.2)
              (setExpireEventTimeout s kv.1 kv.2) rest).expireTimeouts
          = (setExpireEventTimeout s kv.1 kv.2).expireTimeouts ++ rest :=
            ih (setExpireEventTimeout s kv.1 kv.2) hnd' hdisj'
        _ = s.expireTimeouts ++ kv :: rest := by rw [hstep, List.append_assoc]; rfl

/-- With distinct storage keys, the full reset performed by the
cross-tab listener leaves exactly one timer per stored token: the timer
map is cleared and recomputed from storage. -/
theorem resetExpireEventTimeoutAll_recomputes (st : OktaAuthJs.TMState)
    (hnd : (st.storage.map Prod.fst).Nodup) :
    (resetExpireEventTimeoutAll st).expireTimeouts = st.storage := by
  have hdisj : ∀ p ∈ (clearExpireEventTimeoutAll st).expireTimeouts,
      ∀ q ∈ st.storage, p.1 ≠ q.1 := by
    intro p hp
    rw [clearExpireEventTimeoutAll_timeouts st] at hp
    cases hp
  unfold resetExpireEventTimeoutAll setExpireEventTimeoutAll
  rw [clearExpireEventTimeoutAll_storage st,
    setAll_fold_timeouts st.storage (clearExpireEventTimeoutAll st) hnd hdisj,
    clearExpireEventTimeoutAll_timeouts st]
  rfl

/-- C10: the cross-tab storage listener never skips an event whose key
is `null` (a full `localStorage.clear` in another tab): whatever the
old and new serialized values — including when they are equal — it
performs the full timer reset and the diff-based added/removed emission,
and with distinct storage keys the reset leaves exactly the per-token
timers recomputed from storage; the skip test (key differing from the
configured storage key, or values unchanged) governs only events
carrying a truthy key. -/
theorem storage_listener_null_key_not_skipped (st : TMState)
    (newValue oldValue : StorageValue) (storageKey k : String)
    (hnd : (st.storage.map Prod.fst).Nodup) :
    handleStorageEvent st none newValue oldValue storageKey =
      (resetExpireEventTimeoutAll st,
       emitEventsForCrossTabsStorageUpdate newValue oldValue) ∧
    handleStorageEvent st none newValue newValue storageKey =
      (resetExpireEventTimeoutAll st,
       emitEventsForCrossTabsStorageUpdate newValue newValue) ∧
    (handleStorageEvent st none newValue oldValue storageKey).1.expireTimeouts
        = st.storage ∧
    (k ≠ "" → (k ≠ storageKey ∨ newValue = oldValue) →
      handleStorageEvent st (some k) newValue oldValue storageKey = (st, [])) ∧
    (k ≠ "" → k = storageKey → newValue ≠ oldValue →
      handleStorageEvent st (some k) newValue oldValue storageKey =
        (resetExpireEventTimeoutAll st,
         emitEventsForCrossTabsStorageUpdate newValue oldValue)) := by
  have hnull : handleStorageEvent st none newValue oldValue storageKey =
      (resetExpireEventTimeoutAll st,
       emitEventsForCrossTabsStorageUpdate newValue oldValue) := by
    simp [handleStorageEvent]
  refine ⟨hnull, ?_, ?_, ?_, ?_⟩
  · simp [handleStorageEvent]
  · rw [hnull]
    exact resetExpireEventTimeoutAll_recomputes st hnd
  · intro hk hcond
    rcases hcond with hc | hc
    · simp [handleStorageEvent, hk, hc]
    · simp [handleStorageEvent, hk, hc]
  · intro hk he hne
    simp [handleStorageEvent, hk, he, hne]

/-- C10 witness: with one stored token, a timer for a stale key, and a
surviving renew promise, a `null`-key event always runs the reset and
the diff emission; a foreign-key event and a same-values event are
skipped; a matching-key changed-values event runs the handler. -/
theorem storage_listener_null_key_not_skipped_witness :
    handleStorageEvent
        { storage := [("a", { accessTok := true, payload := 7 })],
          expireTimeouts := [("b", {})], renewPromise := [("c", 9)] }
        none (some [("a", { accessTok := true, payload := 7 })]) none "osk" =
      (resetExpireEventTimeoutAll
        { storage := [("a", { accessTok := true, payload := 7 })],
          expireTimeouts := [("b", {})], renewPromise := [("c", 9)] },
       emitEventsForCrossTabsStorageUpdate
         (some [("a", { accessTok := true, payload := 7 })]) none) ∧
    (handleStorageEvent
        { storage := [("a", { accessTok := true, payload := 7 })],
          expireTimeouts := [("b", {})], renewPromise := [("c", 9)] }
        none (some [("a", { accessTok := true, payload := 7 })]) none "osk"
      ).1.expireTimeouts = [("a", { accessTok := true, payload := 7 })] ∧
    handleStorageEvent
        { storage := [("a", { accessTok := true, payload := 7 })],
          expireTimeouts := [("b", {})], renewPromise := [("c", 9)] }
        (some "zz") (some [("a", { accessTok := true, payload := 7 })]) none "osk" =
      ({ storage := [("a", { accessTok := true, payload := 7 })],
         expireTimeouts := [("b", {})], renewPromise := [("c", 9)] }, []) ∧
    handleStorageEvent
        { storage := [("a", { accessTok := true, payload := 7 })],
          expireTimeouts := [("b", {})], renewPromise := [("c", 9)] }
        (some "osk") (some [("a", { accessTok := true, payload := 7 })])
        (some [("a", { accessTok := true, payload := 7 })]) "osk" =
      ({ storage := [("a", { accessTok := true, payload := 7 })],
         expireTimeouts := [("b", {})], renewPromise := [("c", 9)] }, []) ∧
    handleStorageEvent
        { storage := [("a", { accessTok := true, payload := 7 })],
          expireTimeouts := [("b", {})], renewPromise := [("c", 9)] }
        (some "osk") (some [("a", { accessTok := true, payload := 7 })]) none "osk" =
      (resetExpireEventTimeoutAll
        { storage := [("a", { accessTok := true, payload := 7 })],
          expireTimeouts := [("b", {})], renewPromise := [("c", 9)] },
       emitEventsForCrossTabsStorageUpdate
         (some [("a", { accessTok := true, payload := 7 })]) none) :=
  ⟨(storage_listener_null_key_not_skipped
      { storage := [("a", { accessTok := true, payload := 7 })],
        expireTimeouts := [("b", {})], renewPromise := [("c", 9)] }
      (some [("a", { accessTok := true, payload := 7 })]) none "osk" "zz"
      (by decide)).1,
   (storage_listener_null_key_not_skipped
      { storage := [("a", { accessTok := true, payload := 7 })],
        expireTimeouts := [("b", {})], renewPromise := [("c", 9)] }
      (some [("a", { accessTok := true, payload := 7 })]) none "osk" "zz"
      (by decide)).2.2.1,
   (storage_listener_null_key_not_skipped
      { storage := [("a", { accessTok := true, payload := 7 })],
        expireTimeouts := [("b", {})], renewPromise := [("c", 9)] }
      (some [("a", { accessTok := true, payload := 7 })]) none "osk" "zz"
      (by decide)).2.2.2.1 (by decide) (Or.inl (by decide)),
   (storage_listener_null_key_not_skipped
      { storage := [("a", { accessTok := true, payload := 7 })],
        expireTimeouts := [("b", {})], renewPromise := [("c", 9)] }
      (some [("a", { accessTok := true, payload := 7 })])
      (some [("a", { accessTok := true, payload := 7 })]) "osk" "osk"
      (by decide)).2.2.2.1 (by decide) (Or.inr rfl),
   (storage_listener_null_key_not_skipped
      { storage := [("a", { accessTok := true, payload := 7 })],
        expireTimeouts := [("b", {})], renewPromise := [("c", 9)] }
      (some [("a", { accessTok := true, payload := 7 })]) none "osk" "osk"
      (by decide)).2.2.2.2 (by decide) rfl (by decide)⟩
